import Mathlib

/-!
# Verification of the rouzer routing/validation core

Shallow embedding of the rouzer repository's runtime core:

* the zod/mini schema values used by route declarations and the subset of
  their `safeParse` semantics the routes exercise,
* the string-coercion transform `enableStringParsing` (with its
  identity-keyed cache modelled as explicit state),
* the CORS allow-origin compiler and matcher from `createRouter`,
* the server dispatch loop returned by `createRouter` (route scan, CORS
  preflight, ordered validation, handler invocation),
* the client request builder `createClient().request`.

JavaScript platform builtins (`Number`, `URL`, `URLSearchParams`,
`JSON.stringify`, `Response.json`) are external collaborators; they are
modelled just deeply enough for the behavior the routes rely on, and each
such model is marked in its doc comment.
-/

set_option autoImplicit false

namespace Rouzer

/-- JSON-compatible runtime values (plus the JavaScript-specific
`undefined` and `NaN`, which the validation pipeline distinguishes from
`null` and from ordinary numbers). -/
inductive Value where
  | vNull : Value
  | vUndefined : Value
  | vNaN : Value
  | vBool (b : Bool) : Value
  | vNum (q : Rat) : Value
  | vStr (s : String) : Value
  | vArr (elems : List Value) : Value
  | vObj (fields : List (String × Value)) : Value
deriving Repr

/-- `typeof`-style tag used when building validation error messages. -/
def typeName : Value → String
  | .vNull => "null"
  | .vUndefined => "undefined"
  | .vNaN => "NaN"
  | .vBool _ => "boolean"
  | .vNum _ => "number"
  | .vStr _ => "string"
  | .vArr _ => "array"
  | .vObj _ => "object"

/-- Is this value the JavaScript `undefined`? (models `x !== undefined`
checks). -/
def Value.isUndefined : Value → Bool
  | .vUndefined => true
  | _ => false

/-- Structured validation error produced by the schema validator
(models the `ZodError` a failing `safeParse` returns: a structured object
with an inspectable `message`, not an opaque string). -/
structure ZError where
  expected : String
  received : String
  message : String
deriving Repr, DecidableEq

/-- Build the structured error for a value that failed a leaf check. -/
def mkErr (expected : String) (v : Value) : ZError :=
  { expected := expected
  , received := typeName v
  , message := "Invalid input: expected " ++ expected ++ ", received " ++ typeName v }

/-- The two string-coercion transforms `enableStringParsing` installs
(`z.transform(Number)` and `z.transform(toBooleanStrict)`). -/
inductive JsTransform where
  | toNumber : JsTransform
  | toBool : JsTransform
deriving Repr, DecidableEq

mutual
/-- The zod/mini schema shapes the rouzer routes use.  `schema.type`
dispatch in the source corresponds to the constructor here: `number`,
`boolean`, `string`, `object`, `array`; `opt` (an `z.optional` wrapper)
and `pipe` (a `z.pipe(z.transform f, s)`) have other `type` tags and are
left untouched by the coercion transform. -/
inductive Schema where
  | number : Schema
  | boolean : Schema
  | string : Schema
  | object (fields : SchemaFields) : Schema
  | array (elem : Schema) : Schema
  | opt (inner : Schema) : Schema
  | pipe (t : JsTransform) (target : Schema) : Schema

/-- Field list of an object schema (the `def.shape` record). -/
inductive SchemaFields where
  | nil : SchemaFields
  | cons (name : String) (schema : Schema) (rest : SchemaFields) : SchemaFields
end

deriving instance Repr for Schema, SchemaFields
deriving instance DecidableEq for Schema, SchemaFields

/--
The source of `toBooleanStrict`:

  value === 'true' || (value === 'false' ? false : value)

which evaluates to boolean `true` on `"true"`, boolean `false` on
`"false"`, and to the untouched input string otherwise.
-/
def toBooleanStrict (value : String) : Value :=
  if value = "true" then .vBool true
  else if value = "false" then .vBool false
  else .vStr value

/-- Parse of a decimal digit run (helper for the `Number` builtin model). -/
def digitsToNat? : List Char → Option Nat
  | [] => none
  | cs => cs.foldl (fun acc c => match acc with
      | none => none
      | some n => if c.isDigit then some (n * 10 + (c.toNat - '0'.toNat)) else none)
      (some 0)

/-- Model of the JavaScript `Number(string)` builtin (platform builtin,
external to the repository) on the inputs the coerced schemas can see:
an optional sign, an integer part and an optional fractional part parse
to that number, the empty string parses to `0`, anything else is `NaN`.
Exotic syntaxes (hex, exponents, Infinity) are out of the routes' use. -/
def jsNumberOfString (s : String) : Value :=
  let cs := s.trim.toList
  match cs with
  | [] => .vNum 0
  | _ =>
    let (sign, rest) : Rat × List Char :=
      match cs with
      | '-' :: r => (-1, r)
      | '+' :: r => (1, r)
      | r => (1, r)
    match rest.span (fun c => !(c = '.')) with
    | (intPart, []) =>
      match digitsToNat? intPart with
      | some n => .vNum (sign * n)
      | none => .vNaN
    | (intPart, _dot :: fracPart) =>
      match digitsToNat? intPart, digitsToNat? fracPart with
      | some n, some f =>
        .vNum (sign * ((n : Rat) + (f : Rat) / ((10 : Rat) ^ fracPart.length)))
      | _, _ => .vNaN

/-- Model of the `Number` builtin on whole values (only strings are fed
to it by the coerced schemas; the other cases follow the ECMAScript
conversions for completeness, with object/array conversions abstracted
to `NaN`). -/
def jsNumber : Value → Value
  | .vStr s => jsNumberOfString s
  | .vNum q => .vNum q
  | .vNaN => .vNaN
  | .vBool b => .vNum (if b then 1 else 0)
  | .vNull => .vNum 0
  | .vUndefined => .vNaN
  | .vArr _ => .vNaN
  | .vObj _ => .vNaN

/-- Run one of the installed transforms on an input value.  The boolean
transform applies `toBooleanStrict` to strings; on a non-string input the
source function's `value === 'true' || (value === 'false' ? false : value)`
returns the input unchanged. -/
def applyTransform : JsTransform → Value → Value
  | .toNumber, v => jsNumber v
  | .toBool, .vStr s => toBooleanStrict s
  | .toBool, v => v

/-- Look up a field of a JS object literal (first occurrence; a missing
key reads as `undefined`). -/
def objField (fields : List (String × Value)) (k : String) : Value :=
  match fields.find? (fun p => p.1 == k) with
  | some p => p.2
  | none => .vUndefined

/-- Validate each element of a list with one element parser, failing on
the first error (helper for the array case of `safeParse`). -/
def parseListWith (f : Value → Except ZError Value) : List Value → Except ZError (List Value)
  | [] => .ok []
  | x :: xs =>
    match f x with
    | .error e => .error e
    | .ok v =>
      match parseListWith f xs with
      | .error e => .error e
      | .ok out => .ok (v :: out)

mutual
/-- `safeParse` semantics of the schema validator on the shapes above:
leaf schemas check the value's runtime type, object schemas check each
declared field (stripping undeclared keys, per zod's default), array
schemas check every element, `opt` accepts `undefined`, and `pipe` runs
its transform before the target schema. -/
def safeParse : Schema → Value → Except ZError Value
  | .number, v =>
    match v with
    | .vNum q => .ok (.vNum q)
    | v => .error (mkErr "number" v)
  | .boolean, v =>
    match v with
    | .vBool b => .ok (.vBool b)
    | v => .error (mkErr "boolean" v)
  | .string, v =>
    match v with
    | .vStr s => .ok (.vStr s)
    | v => .error (mkErr "string" v)
  | .object fs, v =>
    match v with
    | .vObj m =>
      match parseFields fs m with
      | .ok out => .ok (.vObj out)
      | .error e => .error e
    | v => .error (mkErr "object" v)
  | .array s, v =>
    match v with
    | .vArr xs =>
      match parseListWith (fun x => safeParse s x) xs with
      | .ok out => .ok (.vArr out)
      | .error e => .error e
    | v => .error (mkErr "array" v)
  | .opt s, v =>
    match v with
    | .vUndefined => .ok .vUndefined
    | v => safeParse s v
  | .pipe t s, v => safeParse s (applyTransform t v)

/-- Validate each declared object field against its schema. -/
def parseFields : SchemaFields → List (String × Value) → Except ZError (List (String × Value))
  | .nil, _ => .ok []
  | .cons k s rest, m =>
    match safeParse s (objField m k) with
    | .error e => .error e
    | .ok v =>
      match parseFields rest m with
      | .error e => .error e
      | .ok out => .ok ((k, v) :: out)
end

/-! ## The coercion transform (`enableStringParsing`) -/

mutual
/-- The structural content of the source's `enableStringParsing`:
a number schema becomes `z.pipe(z.transform(Number), schema)`, a boolean
schema becomes `z.pipe(z.transform(toBooleanStrict), schema)`, an object
schema has every field rewritten, an array schema has its element
rewritten, and any other schema kind is returned unchanged.  The
`WeakMap` memoisation of the source is modelled separately by
`enableStringParsingSeen`; `enableStringParsingSeen_sound` shows the
cache only memoises and never changes the result, so this cache-free
version is the one the dispatcher model uses. -/
def enableStringParsing : Schema → Schema
  | .number => .pipe .toNumber .number
  | .boolean => .pipe .toBool .boolean
  | .object fs => .object (coerceFields fs)
  | .array s => .array (enableStringParsing s)
  | .opt s => .opt s
  | .pipe t s => .pipe t s
  | .string => .string

/-- Rewrite of every field of an object schema (the source's
`mapValues(schema.def.shape, enableStringParsing)`). -/
def coerceFields : SchemaFields → SchemaFields
  | .nil => .nil
  | .cons k s rest => .cons k (enableStringParsing s) (coerceFields rest)
end

/-- Lookup in the modelled `seen` cache.  The source keys the `WeakMap`
by object identity; in this pure embedding structural equality of the
schema value stands in for the identity of the schema object. -/
def lookupCache (cache : List (Schema × Schema)) (s : Schema) : Option Schema :=
  (cache.find? (fun p => p.1 == s)).map (fun p => p.2)

mutual
/-- `enableStringParsing` with its `seen` `WeakMap` made explicit:
the cache is threaded through the recursion, consulted before an object
schema is rewritten, and populated after. -/
def enableStringParsingSeen (cache : List (Schema × Schema)) :
    Schema → Schema × List (Schema × Schema)
  | .number => (.pipe .toNumber .number, cache)
  | .boolean => (.pipe .toBool .boolean, cache)
  | .object fs =>
    match lookupCache cache (.object fs) with
    | some cached => (cached, cache)
    | none =>
      match coerceFieldsSeen cache fs with
      | (fs2, cache2) => (.object fs2, (Schema.object fs, Schema.object fs2) :: cache2)
  | .array s =>
    match enableStringParsingSeen cache s with
    | (s2, cache2) => (.array s2, cache2)
  | .opt s => (.opt s, cache)
  | .pipe t s => (.pipe t s, cache)
  | .string => (.string, cache)

/-- Field-map rewrite with the cache threaded left to right. -/
def coerceFieldsSeen (cache : List (Schema × Schema)) :
    SchemaFields → SchemaFields × List (Schema × Schema)
  | .nil => (.nil, cache)
  | .cons k s rest =>
    match enableStringParsingSeen cache s with
    | (s2, cache2) =>
      match coerceFieldsSeen cache2 rest with
      | (rest2, cache3) => (.cons k s2 rest2, cache3)
end

/-! ## CORS allow-origin compilation and matching -/

/-- Tokens of the regular expression built by `createRouter` for a
wildcard-bearing allow-origin: after escaping dots, `*:` is replaced by
`[^:]+:` (`anyProto`) and `*\.` by `([^/]+\.)?` (`optSub`); every other
character matches literally. -/
inductive OriginTok where
  | lit (c : Char) : OriginTok
  | anyProto : OriginTok
  | optSub : OriginTok
deriving Repr, DecidableEq

/-- Scan an origin template into its tokens.  The source performs two
sequential global replaces (`/\*:/g` then `/\*\\./g`); their match sites
are disjoint and neither replacement introduces a `*`, so a single left
to right scan produces the same pattern. -/
def toOriginToks : List Char → List OriginTok
  | [] => []
  | '*' :: ':' :: rest => .anyProto :: toOriginToks rest
  | '*' :: '.' :: rest => .optSub :: toOriginToks rest
  | c :: rest => .lit c :: toOriginToks rest

/-- A compiled allow-origin: either the `ExactPattern` class of the
source (string equality) or the anchored regular expression, represented
by its token list. -/
inductive OriginPattern where
  | exact (value : String) : OriginPattern
  | regexToks (toks : List OriginTok) : OriginPattern
deriving Repr, DecidableEq

/-- Does the character list contain `//`?  (the protocol-separator test
`origin.includes('//')`). -/
def containsDoubleSlash : List Char → Bool
  | c1 :: c2 :: rest => (c1 == '/' && c2 == '/') || containsDoubleSlash (c2 :: rest)
  | _ => false

/-- The allow-origin compiler from `createRouter`: prepend `https://`
when the string has no `//`, compile to the wildcard regular expression
when it contains `*`, and to an `ExactPattern` otherwise. -/
def compileAllowOrigin (origin : String) : OriginPattern :=
  let origin := if containsDoubleSlash origin.toList then origin else "https://" ++ origin
  if origin.data.contains '*' then .regexToks (toOriginToks origin.toList)
  else .exact origin

/-- `[^:]+:` after its first character: consume non-colon characters up
to the first colon, then continue with the rest-matcher `k`.  (A colon
cannot occur inside `[^:]+`, so the first colon is the only possible
terminator.) -/
def protoRest (k : List Char → Bool) : List Char → Bool
  | [] => false
  | ':' :: cs => k cs
  | _ :: cs => protoRest k cs

/-- Rest of a `([^/]+\.)` group: a dot may close the group (or be part
of `[^/]+`, which also admits dots — the backtracking disjunction), a
slash fails, anything else is consumed. -/
def subRest (k : List Char → Bool) : List Char → Bool
  | [] => false
  | '.' :: cs => k cs || subRest k cs
  | '/' :: _ => false
  | _ :: cs => subRest k cs

/-- First character of a `([^/]+\.)` group: it must not be `/`. -/
def subFirst (k : List Char → Bool) : List Char → Bool
  | [] => false
  | c :: cs => !(c == '/') && subRest k cs

/-- Anchored match of the compiled token list against an `Origin`
value (the `^...$` regular expression semantics: the whole input must be
consumed). -/
def matchToks : List OriginTok → List Char → Bool
  | [], cs => cs.isEmpty
  | .lit _ :: _, [] => false
  | .lit c :: ts, d :: ds => c == d && matchToks ts ds
  | .anyProto :: ts, cs =>
    match cs with
    | [] => false
    | c :: cs2 => !(c == ':') && protoRest (matchToks ts) cs2
  | .optSub :: ts, cs => matchToks ts cs || subFirst (matchToks ts) cs

/-- `pattern.test(origin)` for a compiled allow-origin. -/
def originTest : OriginPattern → String → Bool
  | .exact v, input => input == v
  | .regexToks ts, input => matchToks ts input.toList

/-! ## Server dispatcher (`createRouter`) -/

/-- The parsed request URL: the route patterns match on it and the query
validator reads its `searchParams`. -/
structure Url where
  pathname : String
  searchParams : List (String × String)

/-- An incoming HTTP request as the dispatcher sees it.  `jsonBody`
is the settled result of `request.json()`: a parse failure surfaces as
the error that the body-validation stage reports. -/
structure RequestM where
  method : String
  url : Url
  headers : List (String × String)
  jsonBody : Except ZError Value

/-- The per-method schema bundle of a route entry (`route.path`,
`route.query`, `route.body`, `route.headers` in the dispatch loop). -/
structure MethodSchema where
  path : Option Schema
  query : Option Schema
  body : Option Schema
  headers : Option Schema

/-- The dispatch context handed to a handler, with the validated parts
attached as validation succeeds (unset parts read as `undefined`). -/
structure Ctx where
  path : Value
  query : Value
  body : Value
  headers : Value

/-- Context before any validation stage has run. -/
def Ctx.init : Ctx :=
  { path := .vUndefined, query := .vUndefined, body := .vUndefined, headers := .vUndefined }

/-- An HTTP response: status, headers and an optional JSON body
(`none` models a `null` body). -/
structure ResponseM where
  status : Nat
  headers : List (String × String)
  body : Option Value
deriving Repr

/-- Model of the `Response.json(value, {status})` builtin. -/
def responseJson (status : Nat) (v : Value) : ResponseM :=
  { status := status
  , headers := [("content-type", "application/json")]
  , body := some v }

/-- What a bound handler returns: either a raw `Response` (passed
through unchanged) or a value to be JSON-serialized with status 200. -/
inductive HandlerOut where
  | resp (r : ResponseM) : HandlerOut
  | val (v : Value) : HandlerOut

/-- A bound request handler. -/
def Handler : Type := Ctx → HandlerOut

/-- A route-table entry together with the handlers bound for it
(`config.routes[key]` and `handlers[key]` share the key, so they are
modelled as one record; the list the dispatcher receives is in
declaration order).  The compiled pattern is the opaque external
Pattern Matcher, modelled as its `match` capability. -/
structure ServerRoute where
  key : String
  methods : List (String × MethodSchema)
  matchUrl : Url → Option (List (String × String))
  handlers : List (String × Handler)

/-- Router configuration (debug flag and the raw
`cors.allowOrigins` strings). -/
structure ServerConfig where
  debug : Bool
  corsAllowOrigins : Option (List String)

/-- Outcome of one dispatch: a response, no response at all (no entry
matched; the middleware chain decides the fallback), or a thrown error
(debug-mode missing handler). -/
inductive DispatchResult where
  | response (r : ResponseM) : DispatchResult
  | noMatch : DispatchResult
  | fatal (msg : String) : DispatchResult
deriving Repr

/-- First value bound to a key (JS object property lookup on the
route/handler maps). -/
def findVal {α : Type} (l : List (String × α)) (k : String) : Option α :=
  (l.find? (fun p => p.1 == k)).map (fun p => p.2)

/-- ASCII lower-casing (model of `String.prototype.toLowerCase` /
`Headers` name normalization on the ASCII header names in play). -/
def lowerStr (s : String) : String := String.mk (s.data.map Char.toLower)

/-- `request.headers.get(name)` — header lookup is case-insensitive. -/
def headerGet (headers : List (String × String)) (name : String) : Option String :=
  (headers.find? (fun p => lowerStr p.1 == lowerStr name)).map (fun p => p.2)

/-- `Object.fromEntries`: later entries win, insertion order is that of
the first occurrence of each key. -/
def setKey {α : Type} (l : List (String × α)) (k : String) (v : α) : List (String × α) :=
  if l.any (fun p => p.1 == k) then l.map (fun p => if p.1 == k then (k, v) else p)
  else l ++ [(k, v)]

/-- Fold a pair list into a JS-object-like deduplicated pair list. -/
def fromEntries {α : Type} (l : List (String × α)) : List (String × α) :=
  l.foldl (fun acc p => setKey acc p.1 p.2) []

/-- The captured path parameters as the params object the pattern
matcher produces. -/
def paramsToValue (params : List (String × String)) : Value :=
  .vObj (params.map (fun p => (p.1, Value.vStr p.2)))

/-- `Object.fromEntries(context.request.headers)` — iterating `Headers`
yields lower-cased names. -/
def headersValue (req : RequestM) : Value :=
  .vObj ((fromEntries (req.headers.map (fun p => (lowerStr p.1, p.2)))).map
    (fun p => (p.1, Value.vStr p.2)))

/-- `Object.fromEntries(context.url.searchParams)`. -/
def queryValue (url : Url) : Value :=
  .vObj ((fromEntries url.searchParams).map (fun p => (p.1, Value.vStr p.2)))

/-- `String.prototype.toUpperCase` on the (ASCII) method name. -/
def jsUpper (s : String) : String := String.mk (s.data.map Char.toUpper)

/-- The 400 client-error response: the structured validation error is
spread into the body and its `message` replaced by the stage message
(annotated with the underlying detail in debug mode). -/
def httpClientError (e : ZError) (message : String) (debug : Bool) : ResponseM :=
  responseJson 400 (.vObj
    [ ("expected", .vStr e.expected)
    , ("received", .vStr e.received)
    , ("message", .vStr (if debug then message ++ ": " ++ e.message else message)) ])

/-- `parsePathParams`: validate the captured params, attach to the
context on success. -/
def parsePathParams (ctx : Ctx) (schema : Schema) (params : Value) : Except ZError Ctx :=
  match safeParse schema params with
  | .error e => .error e
  | .ok v => .ok { ctx with path := v }

/-- `parseHeaders`: validate the request headers object, attach on
success. -/
def parseHeaders (ctx : Ctx) (schema : Schema) (req : RequestM) : Except ZError Ctx :=
  match safeParse schema (headersValue req) with
  | .error e => .error e
  | .ok v => .ok { ctx with headers := v }

/-- `parseQueryString`: validate the query-string object, attach on
success. -/
def parseQueryString (ctx : Ctx) (schema : Schema) (url : Url) : Except ZError Ctx :=
  match safeParse schema (queryValue url) with
  | .error e => .error e
  | .ok v => .ok { ctx with query := v }

/-- `parseRequestBody`: await and parse the JSON body, validate it
(without any coercion), attach on success.  A `json()` rejection is the
reported error. -/
def parseRequestBody (ctx : Ctx) (schema : Schema) (req : RequestM) : Except ZError Ctx :=
  match req.jsonBody with
  | .error e => .error e
  | .ok b =>
    match safeParse schema b with
    | .error e => .error e
    | .ok v => .ok { ctx with body := v }

/-- Mapping of a handler result to the dispatch outcome: a raw response
is returned unchanged, any other value is JSON-serialized with
status 200. -/
def handlerToResult : HandlerOut → DispatchResult
  | .resp r => .response r
  | .val v => .response (responseJson 200 v)

/-- Path stage of dispatch: when a path schema is declared it is coerced
and validated; otherwise the raw captured params are attached as-is. -/
def pathStage (route : MethodSchema) (params : List (String × String)) : Except ZError Ctx :=
  match route.path with
  | some ps => parsePathParams Ctx.init (enableStringParsing ps) (paramsToValue params)
  | none => .ok { Ctx.init with path := paramsToValue params }

/-- Headers stage of dispatch (coerced schema; skipped when absent). -/
def headersStage (route : MethodSchema) (ctx : Ctx) (req : RequestM) : Except ZError Ctx :=
  match route.headers with
  | some hs => parseHeaders ctx (enableStringParsing hs) req
  | none => .ok ctx

/-- Query stage of dispatch (coerced schema; skipped when absent). -/
def queryStage (route : MethodSchema) (ctx : Ctx) (url : Url) : Except ZError Ctx :=
  match route.query with
  | some qs => parseQueryString ctx (enableStringParsing qs) url
  | none => .ok ctx

/-- Body stage of dispatch: the declared body schema is used directly —
`enableStringParsing` is not applied to it. -/
def bodyStage (route : MethodSchema) (ctx : Ctx) (req : RequestM) : Except ZError Ctx :=
  match route.body with
  | some bs => parseRequestBody ctx bs req
  | none => .ok ctx

/-- The validation-and-invoke tail of the dispatch loop for a matched
entry with a bound handler, in source order: path (coerced; raw params
attached when no path schema is declared), then headers (coerced), then
query (coerced), then body (uncoerced), stopping at the first failure
with the corresponding 400 response. -/
def runRoute (cfg : ServerConfig) (route : MethodSchema) (req : RequestM)
    (params : List (String × String)) (handler : Handler) : DispatchResult :=
  match pathStage route params with
  | .error e => .response (httpClientError e "Invalid path parameter" cfg.debug)
  | .ok ctx =>
  match headersStage route ctx req with
  | .error e => .response (httpClientError e "Invalid request headers" cfg.debug)
  | .ok ctx =>
  match queryStage route ctx req.url with
  | .error e => .response (httpClientError e "Invalid query string" cfg.debug)
  | .ok ctx =>
  match bodyStage route ctx req with
  | .error e => .response (httpClientError e "Invalid request body" cfg.debug)
  | .ok ctx => handlerToResult (handler ctx)

/-- The preflight origin test of the dispatch loop: `allowOrigins`
undefined lets everything through; otherwise an `Origin` header must be
present and match one compiled pattern (the source's
`allowOrigins && !(origin && allowOrigins.some(p => p.test(origin)))`
condition, negated). -/
def originAllowed (allowOrigins : Option (List OriginPattern)) (origin : Option String) : Bool :=
  match allowOrigins with
  | none => true
  | some pats =>
    match origin with
    | some o => pats.any (fun p => originTest p o)
    | none => false

/-- The route-table scan of `createRouter`'s request handler: entries in
declaration order; an entry is skipped when the method has no schema
bundle, the pattern does not match, or (outside debug mode) no handler
is bound; in debug mode a missing handler throws.  On a preflight the
entry short-circuits into the CORS response before any validation. -/
def dispatchRoutes (cfg : ServerConfig) (allowOrigins : Option (List OriginPattern))
    (method : String) (isPreflight : Bool) (req : RequestM) :
    List ServerRoute → DispatchResult
  | [] => .noMatch
  | entry :: rest =>
    match findVal entry.methods method with
    | none => dispatchRoutes cfg allowOrigins method isPreflight req rest
    | some route =>
      match entry.matchUrl req.url with
      | none => dispatchRoutes cfg allowOrigins method isPreflight req rest
      | some params =>
        match findVal entry.handlers method with
        | none =>
          if cfg.debug then
            .fatal ("Handler not found for route: " ++ entry.key ++ " " ++ method)
          else dispatchRoutes cfg allowOrigins method isPreflight req rest
        | some handler =>
          if isPreflight then
            let origin := headerGet req.headers "Origin"
            if originAllowed allowOrigins origin then
              .response
                { status := 200
                , headers :=
                    [ ("Access-Control-Allow-Origin", origin.getD "*")
                    , ("Access-Control-Allow-Methods", method)
                    , ("Access-Control-Allow-Headers",
                        (headerGet req.headers "Access-Control-Request-Headers").getD "") ]
                , body := none }
            else .response { status := 403, headers := [], body := none }
          else runRoute cfg route req params handler

/-- The effective method of a request: an `OPTIONS` request is a CORS
preflight and dispatches on its `Access-Control-Request-Method` header
(defaulting to `GET`). -/
def requestedMethod (req : RequestM) : String :=
  if jsUpper req.method = "OPTIONS" then
    (headerGet req.headers "Access-Control-Request-Method").getD "GET"
  else jsUpper req.method

/-- The request handler returned by `createRouter`: compile the
allow-origins once, determine preflight mode, then scan the table. -/
def handleRequest (cfg : ServerConfig) (table : List ServerRoute) (req : RequestM) :
    DispatchResult :=
  dispatchRoutes cfg (cfg.corsAllowOrigins.map (fun l => l.map compileAllowOrigin))
    (requestedMethod req) (decide (jsUpper req.method = "OPTIONS")) req table

/-! ## Client request builder (`createClient`) -/

/-- Client configuration (`baseURL` and default headers; the JSON error
handler plays no part in request construction). -/
structure ClientConfig where
  baseURL : String
  headers : Option (List (String × String))

/-- The caller-supplied arguments of one route-bound call; absent
arguments are `undefined`. -/
structure ClientArgs where
  path : Value
  query : Value
  body : Value
  headers : Value

/-- The compiled pattern's `href` capability (the opaque external
Pattern Matcher generating a path string from parameter values). -/
structure PathPattern where
  href : Value → String

/-- The `RouteRequest` a route-bound call hands to the client:
the pattern, the HTTP method, the raw arguments and the per-method
schema bundle. -/
structure ClientRouteRequest where
  pathBuilder : PathPattern
  method : String
  args : ClientArgs
  schema : MethodSchema

/-- Errors thrown by the request builder before any network I/O:
a structured validation error from a `.parse` call, or a usage error
(`throw new Error(...)`) for arguments the schema bundle forbids. -/
inductive ClientError where
  | validation (e : ZError) : ClientError
  | usage (msg : String) : ClientError
deriving Repr

/-- The destination URL under construction (the `URL` platform builtin
modelled as the generated path portion plus the query string; claims
about this core never depend on deeper URL normalization). -/
structure UrlObj where
  pathBase : String
  search : String
deriving Repr

/-- The outgoing request handed to `fetch` — constructing this value is
the network boundary.  The body is kept as the validated value
(`JSON.stringify` is a platform builtin applied just before the wire). -/
structure FetchCall where
  url : UrlObj
  method : String
  body : Option Value
  headers : Value

/-- JavaScript truthiness (`if (query)` checks). -/
def jsTruthy : Value → Bool
  | .vNull => false
  | .vUndefined => false
  | .vNaN => false
  | .vBool b => b
  | .vNum q => !(q == 0)
  | .vStr s => !(s == "")
  | .vArr _ => true
  | .vObj _ => true

/-- `v ?? d` — nullish coalescing. -/
def nullishDefault (v d : Value) : Value :=
  match v with
  | .vUndefined => d
  | .vNull => d
  | v => v

/-- `baseURL.replace(/\/$/, '')`: strip one trailing slash. -/
def stripTrailingSlash (s : String) : String :=
  match s.data.getLast? with
  | some '/' => String.mk s.data.dropLast
  | _ => s

/-- String rendering used by `URLSearchParams` on member values (the
platform's ToString conversion, modelled for the value shapes a query
schema can produce; the numeric rendering is abstracted by the `Rat`
printer). -/
def jsToString : Value → String
  | .vStr s => s
  | .vBool b => if b then "true" else "false"
  | .vNum q => toString q
  | .vNaN => "NaN"
  | .vNull => "null"
  | .vUndefined => "undefined"
  | .vArr _ => ""
  | .vObj _ => "[object Object]"

/-- `new URLSearchParams(query).toString()` (platform builtin, modelled
without percent-encoding, which no claim depends on). -/
def urlSearchParamsToString (q : Value) : String :=
  match q with
  | .vObj fields => String.intercalate "&" (fields.map (fun p => p.1 ++ "=" ++ jsToString p.2))
  | _ => ""

/-- `href[0] === '/'` — is the first character a slash? -/
def firstCharIs (s : String) (c : Char) : Bool :=
  match s.data with
  | [] => false
  | d :: _ => d == c

/-- `schema.parse(v)` — the throwing parse: a failure becomes a thrown
structured validation error. -/
def zparse (s : Schema) (v : Value) : Except ClientError Value :=
  match safeParse s v with
  | .error e => .error (.validation e)
  | .ok v => .ok v

/-- Path stage of the builder: `if (schema.path) path = schema.path.parse(path)`. -/
def clientPathStage (r : ClientRouteRequest) : Except ClientError Value :=
  match r.schema.path with
  | some ps => zparse ps r.args.path
  | none => .ok r.args.path

/-- Query stage: with a declared query schema the caller's query
(defaulted to `{}` when nullish) is parsed and serialized into the URL's
search; without one, a truthy caller query is a usage error. -/
def clientQueryStage (r : ClientRouteRequest) (url : UrlObj) :
    Except ClientError (UrlObj × Value) :=
  match r.schema.query with
  | some qs =>
    match zparse qs (nullishDefault r.args.query (.vObj [])) with
    | .error e => .error e
    | .ok q => .ok ({ url with search := urlSearchParamsToString q }, q)
  | none =>
    if jsTruthy r.args.query then .error (.usage "Unexpected query parameters")
    else .ok (url, r.args.query)

/-- Body stage: with a declared body schema the caller's body
(defaulted to `{}` when it is `undefined`) is parsed; without one, a
body other than `undefined` is a usage error. -/
def clientBodyStage (r : ClientRouteRequest) : Except ClientError Value :=
  match r.schema.body with
  | some bs => zparse bs (if r.args.body.isUndefined then .vObj [] else r.args.body)
  | none =>
    if r.args.body.isUndefined then .ok r.args.body
    else .error (.usage "Unexpected body")

/-- `shake`: drop entries whose value is `undefined`. -/
def shakeObj (fields : List (String × Value)) : List (String × Value) :=
  fields.filter (fun p => !(p.2.isUndefined))

/-- The fields the caller's headers contribute to the spread
(`headers && shake(headers)`; a falsy or non-object value spreads to
nothing). -/
def callerHeaderFields : Value → List (String × Value)
  | .vObj fields => shakeObj fields
  | _ => []

/-- The fields the configured default headers contribute to the spread
(spreading `undefined` contributes nothing). -/
def configHeaderFields (config : ClientConfig) : List (String × Value) :=
  (config.headers.getD []).map (fun p => (p.1, Value.vStr p.2))

/-- Headers stage: merge configured defaults with the shaken caller
headers when either is present, then validate through the headers
schema when one is declared. -/
def clientHeadersStage (config : ClientConfig) (r : ClientRouteRequest) :
    Except ClientError Value :=
  let merged : Value :=
    if config.headers.isSome || jsTruthy r.args.headers then
      .vObj (fromEntries (configHeaderFields config ++ callerHeaderFields r.args.headers))
    else r.args.headers
  match r.schema.headers with
  | some hs => zparse hs merged
  | none => .ok merged

/-- URL construction of the `request` method: generate the path string
from the pattern; a root-relative path is appended to the (stripped)
base URL, an absolute one is used as-is. -/
def clientUrl (config : ClientConfig) (r : ClientRouteRequest) (path : Value) : UrlObj :=
  let href := r.pathBuilder.href path
  if firstCharIs href '/' then
    { pathBase := stripTrailingSlash config.baseURL ++ r.pathBuilder.href path, search := "" }
  else { pathBase := href, search := "" }

/-- Does the query stage accept this call?  Either no query schema is
declared and the caller's query is falsy, or the (defaulted) query
parses. -/
def QueryStageOk (r : ClientRouteRequest) : Prop :=
  (r.schema.query = none ∧ jsTruthy r.args.query = false) ∨
  (∃ qs qv, r.schema.query = some qs ∧
    safeParse qs (nullishDefault r.args.query (.vObj [])) = .ok qv)

/-- The `request` method of `createClient` (continued): run the query,
body and headers stages in source order after the URL is built, and only
then produce the fetch call.  Every `.error` models a throw that happens
before any network I/O. -/
def clientRequest (config : ClientConfig) (r : ClientRouteRequest) :
    Except ClientError FetchCall :=
  match clientPathStage r with
  | .error e => .error e
  | .ok path =>
    match clientQueryStage r (clientUrl config r path) with
    | .error e => .error e
    | .ok (url2, _) =>
      match clientBodyStage r with
      | .error e => .error e
      | .ok body =>
        match clientHeadersStage config r with
        | .error e => .error e
        | .ok hdrs =>
          .ok { url := url2
              , method := r.method
              , body := if body.isUndefined then none else some body
              , headers := hdrs }

/-! ## Concrete route fixtures

A small route table in the style of the repository's README route
(`route('hello/:name', { GET: { query: z.object({ excited: z.boolean() }) } })`),
used to exercise the theorems on concrete dispatches. -/

/-- `z.object({ flag: z.boolean() })`. -/
def exFlagSchema : Schema := .object (.cons "flag" .boolean .nil)

/-- A handler echoing the validated query into a JSON response. -/
def exHandler : Handler := fun ctx => .val (.vObj [("echo", ctx.query)])

/-- A handler echoing the validated body. -/
def exHandlerBody : Handler := fun ctx => .val (.vObj [("echo", ctx.body)])

/-- A handler marking the second table entry. -/
def exHandlerSecond : Handler := fun _ => .val (.vStr "second")

/-- A compiled pattern matching every URL with one captured param. -/
def exMatch : Url → Option (List (String × String)) := fun _ => some [("name", "world")]

/-- Method schema with both a headers schema and a query schema. -/
def exRouteHQ : MethodSchema :=
  { path := none, query := some exFlagSchema, body := none, headers := some exFlagSchema }

/-- Method schema with only a query schema. -/
def exRouteQ : MethodSchema :=
  { path := none, query := some exFlagSchema, body := none, headers := none }

/-- Method schema with only a body schema. -/
def exRouteB : MethodSchema :=
  { path := none, query := none, body := some exFlagSchema, headers := none }

/-- Method schema declaring no part schemas. -/
def exRoutePlain : MethodSchema :=
  { path := none, query := none, body := none, headers := none }

/-- Entry whose GET declares headers and query schemas. -/
def exEntryHQ : ServerRoute :=
  { key := "helloRoute", methods := [("GET", exRouteHQ)], matchUrl := exMatch
  , handlers := [("GET", exHandler)] }

/-- Entry whose GET declares only a query schema. -/
def exEntryQ : ServerRoute :=
  { key := "queryRoute", methods := [("GET", exRouteQ)], matchUrl := exMatch
  , handlers := [("GET", exHandler)] }

/-- Entry whose POST declares only a body schema. -/
def exEntryB : ServerRoute :=
  { key := "bodyRoute", methods := [("POST", exRouteB)], matchUrl := exMatch
  , handlers := [("POST", exHandlerBody)] }

/-- Entry that matches but has no handler bound for GET. -/
def exEntryNoHandler : ServerRoute :=
  { key := "first", methods := [("GET", exRoutePlain)], matchUrl := exMatch
  , handlers := [] }

/-- Entry with a bound GET handler (used as the later table entry). -/
def exEntrySecond : ServerRoute :=
  { key := "second", methods := [("GET", exRoutePlain)], matchUrl := exMatch
  , handlers := [("GET", exHandlerSecond)] }

/-- Plain server configuration. -/
def exCfg : ServerConfig := { debug := false, corsAllowOrigins := none }

/-- Debug-mode configuration. -/
def exCfgDebug : ServerConfig := { debug := true, corsAllowOrigins := none }

/-- Configuration with a CORS allow-list. -/
def exCfgCors : ServerConfig :=
  { debug := false, corsAllowOrigins := some ["https://*.example.com", "*://localhost:3000"] }

/-- GET request whose query and headers both fail the flag schema
(`flag=yes` in the query, no `flag` header at all). -/
def exReqHQ : RequestM :=
  { method := "GET"
  , url := { pathname := "/hello/world", searchParams := [("flag", "yes")] }
  , headers := []
  , jsonBody := .ok .vNull }

/-- GET request with query `flag=true`. -/
def exReqFlagTrue : RequestM :=
  { method := "GET"
  , url := { pathname := "/hello/world", searchParams := [("flag", "true")] }
  , headers := []
  , jsonBody := .ok .vNull }

/-- POST request whose JSON body is `{"flag": "true"}` (a string, not a
boolean). -/
def exReqBodyStr : RequestM :=
  { method := "POST"
  , url := { pathname := "/hello/world", searchParams := [] }
  , headers := []
  , jsonBody := .ok (.vObj [("flag", .vStr "true")]) }

/-- POST request whose JSON body is `{"flag": true}`. -/
def exReqBodyBool : RequestM :=
  { method := "POST"
  , url := { pathname := "/hello/world", searchParams := [] }
  , headers := []
  , jsonBody := .ok (.vObj [("flag", .vBool true)]) }

/-- CORS preflight request from an allowed origin. -/
def exPreflightReq : RequestM :=
  { method := "OPTIONS"
  , url := { pathname := "/hello/world", searchParams := [] }
  , headers :=
      [ ("Origin", "https://shop.example.com")
      , ("Access-Control-Request-Method", "GET")
      , ("Access-Control-Request-Headers", "content-type") ]
  , jsonBody := .ok .vNull }

/-- CORS preflight request from a disallowed origin. -/
def exPreflightBadReq : RequestM :=
  { method := "OPTIONS"
  , url := { pathname := "/hello/world", searchParams := [] }
  , headers :=
      [ ("Origin", "https://evil.example.net")
      , ("Access-Control-Request-Method", "GET") ]
  , jsonBody := .ok .vNull }

/-- Object schema used to exercise the coercion cache. -/
def exSeenFields : SchemaFields := .cons "a" .boolean .nil

/-- Its coerced form. -/
def exSeenResult : Schema := .object (.cons "a" (.pipe .toBool .boolean) .nil)

/-- Client configuration fixture. -/
def exClientCfg : ClientConfig := { baseURL := "/api/", headers := none }

/-- A pattern whose `href` renders the README route path. -/
def exPathPattern : PathPattern := { href := fun _ => "/hello/world" }

/-- Client call supplying query args to a method with no query schema. -/
def exClientReqUnexpectedQuery : ClientRouteRequest :=
  { pathBuilder := exPathPattern, method := "GET"
  , args := { path := .vUndefined, query := .vObj [("flag", .vStr "true")]
            , body := .vUndefined, headers := .vUndefined }
  , schema := exRoutePlain }

/-- Client call supplying a body to a method with no body schema. -/
def exClientReqUnexpectedBody : ClientRouteRequest :=
  { pathBuilder := exPathPattern, method := "POST"
  , args := { path := .vUndefined, query := .vUndefined
            , body := .vObj [("title", .vStr "x")], headers := .vUndefined }
  , schema := exRoutePlain }

/-- Client call on a method with a query schema and no query argument. -/
def exClientReqDefaultedQuery : ClientRouteRequest :=
  { pathBuilder := exPathPattern, method := "GET"
  , args := { path := .vUndefined, query := .vObj [("flag", .vBool true)]
            , body := .vUndefined, headers := .vUndefined }
  , schema := exRouteQ }

/-! ## Helper lemmas -/

mutual
/-- The coercion transform is structurally idempotent: a rewritten
schema consists only of `pipe`/`opt`/`string` nodes at the points the
transform inspects, so a second pass leaves it unchanged. -/
theorem enableStringParsing_idem :
    ∀ s : Schema, enableStringParsing (enableStringParsing s) = enableStringParsing s
  | .number => rfl
  | .boolean => rfl
  | .string => rfl
  | .opt s => rfl
  | .pipe t s => rfl
  | .object fs => by
    simp only [enableStringParsing]
    exact congrArg Schema.object (coerceFields_idem fs)
  | .array s => by
    simp only [enableStringParsing]
    exact congrArg Schema.array (enableStringParsing_idem s)

/-- Field-map version of `enableStringParsing_idem`. -/
theorem coerceFields_idem :
    ∀ fs : SchemaFields, coerceFields (coerceFields fs) = coerceFields fs
  | .nil => rfl
  | .cons k s rest => by
    simp only [coerceFields]
    rw [enableStringParsing_idem s, coerceFields_idem rest]
end

/-- Soundness invariant of the modelled `seen` cache: every cached
entry is the coercion of its key. -/
def CacheSound (cache : List (Schema × Schema)) : Prop :=
  ∀ p ∈ cache, p.2 = enableStringParsing p.1

/-- A hit in a sound cache returns exactly the coercion of the key. -/
theorem lookupCache_sound {cache : List (Schema × Schema)} (hc : CacheSound cache)
    {s m : Schema} (h : lookupCache cache s = some m) : m = enableStringParsing s := by
  unfold lookupCache at h
  cases hf : cache.find? (fun p => p.1 == s) with
  | none => rw [hf] at h; cases h
  | some p =>
    rw [hf] at h
    have hmem := List.mem_of_find?_eq_some hf
    have hkey : p.1 = s := by simpa using List.find?_some hf
    have hval : p.2 = m := by simpa using h
    rw [← hval, hc p hmem, hkey]

mutual
/-- The explicit-cache transform agrees with the cache-free one and
preserves cache soundness: memoisation never changes the rewritten
schema. -/
theorem enableStringParsingSeen_sound :
    ∀ (cache : List (Schema × Schema)), CacheSound cache → ∀ s : Schema,
      (enableStringParsingSeen cache s).1 = enableStringParsing s ∧
      CacheSound (enableStringParsingSeen cache s).2
  | cache, hc, .number => ⟨rfl, hc⟩
  | cache, hc, .boolean => ⟨rfl, hc⟩
  | cache, hc, .string => ⟨rfl, hc⟩
  | cache, hc, .opt s => ⟨rfl, hc⟩
  | cache, hc, .pipe t s => ⟨rfl, hc⟩
  | cache, hc, .object fs => by
    cases h0 : lookupCache cache (.object fs) with
    | some cached =>
      simp only [enableStringParsingSeen, h0]
      exact ⟨lookupCache_sound hc h0, hc⟩
    | none =>
      have ih := coerceFieldsSeen_sound cache hc fs
      cases h1 : coerceFieldsSeen cache fs with
      | mk fs2 c2 =>
        rw [h1] at ih
        simp only [enableStringParsingSeen, h0, h1]
        constructor
        · simp only [enableStringParsing]
          exact congrArg Schema.object ih.1
        · intro p hp
          rcases List.mem_cons.mp hp with hp | hp
          · subst hp
            simp only [enableStringParsing]
            exact congrArg Schema.object ih.1
          · exact ih.2 p hp
  | cache, hc, .array s => by
    have ih := enableStringParsingSeen_sound cache hc s
    cases h1 : enableStringParsingSeen cache s with
    | mk s2 c2 =>
      rw [h1] at ih
      simp only [enableStringParsingSeen, h1]
      constructor
      · simp only [enableStringParsing]
        exact congrArg Schema.array ih.1
      · exact ih.2

/-- Field-map version of `enableStringParsingSeen_sound`. -/
theorem coerceFieldsSeen_sound :
    ∀ (cache : List (Schema × Schema)), CacheSound cache → ∀ fs : SchemaFields,
      (coerceFieldsSeen cache fs).1 = coerceFields fs ∧
      CacheSound (coerceFieldsSeen cache fs).2
  | cache, hc, .nil => ⟨rfl, hc⟩
  | cache, hc, .cons k s rest => by
    have ih1 := enableStringParsingSeen_sound cache hc s
    cases h1 : enableStringParsingSeen cache s with
    | mk s2 c2 =>
      rw [h1] at ih1
      have ih2 := coerceFieldsSeen_sound c2 ih1.2 rest
      cases h2 : coerceFieldsSeen c2 rest with
      | mk rest2 c3 =>
        rw [h2] at ih2
        have e1 : s2 = enableStringParsing s := ih1.1
        have e2 : rest2 = coerceFields rest := ih2.1
        simp only [coerceFieldsSeen, h1, h2]
        constructor
        · simp only [coerceFields]
          rw [e1, e2]
        · exact ih2.2
end

/-! ## Claims -/

/-- **C3.** The boolean coercion maps exactly the literal string
`"true"` to boolean `true` and exactly `"false"` to boolean `false`,
and passes every other string through unchanged; consequently the
coerced strict-boolean schema accepts `"true"`/`"false"` and rejects
every other string (such as `"yes"`) with a structured error. -/
theorem toBooleanStrict_spec (s : String) :
    toBooleanStrict s =
      (if s = "true" then .vBool true else if s = "false" then .vBool false else .vStr s) ∧
    safeParse (enableStringParsing .boolean) (.vStr s) =
      (if s = "true" then .ok (.vBool true)
       else if s = "false" then .ok (.vBool false)
       else .error (mkErr "boolean" (.vStr s))) := by
  constructor
  · rfl
  · show safeParse (.pipe .toBool .boolean) (.vStr s) = _
    simp only [safeParse, applyTransform, toBooleanStrict]
    split_ifs <;> rfl

/-- **C4.** The coercion transform is idempotent (a second application
changes no validation result) and memoized: once an object schema has
been rewritten, every later use with the same schema returns the cached
result and leaves the cache unchanged. -/
theorem enableStringParsing_idempotent_memoized :
    (∀ (s : Schema) (v : Value),
        safeParse (enableStringParsing (enableStringParsing s)) v =
          safeParse (enableStringParsing s) v) ∧
    (∀ (cache : List (Schema × Schema)) (fs : SchemaFields) (r : Schema)
        (cache2 : List (Schema × Schema)),
        enableStringParsingSeen cache (.object fs) = (r, cache2) →
        enableStringParsingSeen cache2 (.object fs) = (r, cache2)) := by
  constructor
  · intro s v
    rw [enableStringParsing_idem]
  · intro cache fs r cache2 h
    cases h0 : lookupCache cache (.object fs) with
    | some cached =>
      have h1 : enableStringParsingSeen cache (.object fs) = (cached, cache) := by
        simp [enableStringParsingSeen, h0]
      rw [h1] at h
      obtain ⟨hr, hcache⟩ := Prod.mk.injEq .. ▸ h
      subst hr
      subst hcache
      exact h1
    | none =>
      cases h1 : coerceFieldsSeen cache fs with
      | mk fs2 c2 =>
        have h2 : enableStringParsingSeen cache (.object fs) =
            (.object fs2, (Schema.object fs, Schema.object fs2) :: c2) := by
          simp [enableStringParsingSeen, h0, h1]
        rw [h2] at h
        obtain ⟨hr, hcache⟩ := Prod.mk.injEq .. ▸ h
        subst hr
        subst hcache
        have h3 : lookupCache ((Schema.object fs, Schema.object fs2) :: c2) (.object fs) =
            some (.object fs2) := by
          simp [lookupCache, List.find?]
        simp [enableStringParsingSeen, h3]

/-- Witness for **C4** at the schema `z.object({ a: z.boolean() })`:
after a first rewrite has populated the cache, the second use is a
cache hit returning the stored result with the cache unchanged. -/
theorem enableStringParsing_idempotent_memoized_witness :
    enableStringParsingSeen [(Schema.object exSeenFields, exSeenResult)]
        (.object exSeenFields) =
      (exSeenResult, [(Schema.object exSeenFields, exSeenResult)]) :=
  enableStringParsing_idempotent_memoized.2 []
    exSeenFields exSeenResult [(Schema.object exSeenFields, exSeenResult)] rfl

/-- **C5 counterexample.** The claim describes `*.` as matching zero or
one subdomain label plus a dot, but the compiled `([^/]+\.)?` group also
accepts several dot-separated labels: `https://*.example.com` accepts an
origin whose subdomain part `a.b` is not a single label (it contains a
dot). -/
theorem compileAllowOrigin_multilabel_counterexample :
    originTest (compileAllowOrigin "https://*.example.com") "https://a.b.example.com" = true ∧
    "a.b".data.contains '.' = true := by
  exact ⟨by decide, by decide⟩

/-- **C5 (amended).** Allow-origin compilation: a string without `//`
gets `https://` prepended; a string without `*` compiles to an
exact-match test; `*` before a colon matches any protocol token; and
`*.` matches an optional run of one or more non-slash characters
followed by a dot — which may span several dot-separated subdomain
labels, not only a single label.  The claim's concrete examples all
hold. -/
theorem compileAllowOrigin_spec :
    (∀ o : String, containsDoubleSlash o.toList = false →
        compileAllowOrigin o = compileAllowOrigin ("https://" ++ o)) ∧
    (∀ o : String, containsDoubleSlash o.toList = true → o.data.contains '*' = false →
        compileAllowOrigin o = .exact o ∧ ∀ x, originTest (.exact o) x = (x == o)) ∧
    originTest (compileAllowOrigin "*://localhost:3000") "http://localhost:3000" = true ∧
    originTest (compileAllowOrigin "*://localhost:3000") "https://localhost:3000" = true ∧
    originTest (compileAllowOrigin "*://localhost:3000") "http://localhost:4000" = false ∧
    originTest (compileAllowOrigin "https://*.example.com") "https://example.com" = true ∧
    originTest (compileAllowOrigin "https://*.example.com") "https://shop.example.com" = true ∧
    originTest (compileAllowOrigin "https://*.example.com") "http://shop.example.com" = false := by
  refine ⟨?_, ?_, rfl, rfl, rfl, rfl, rfl, rfl⟩
  · intro o h
    have hh : containsDoubleSlash ("https://" ++ o).toList = true := by
      show containsDoubleSlash ("https://" ++ o).data = true
      rw [String.data_append]
      rfl
    unfold compileAllowOrigin
    rw [h, hh]
    simp
  · intro o h hstar
    unfold compileAllowOrigin
    simp only [h, hstar, if_true, Bool.false_eq_true, if_false]
    exact ⟨trivial, fun x => rfl⟩

/-- Witness for **C5 (amended)**: `example.net` has no protocol
separator, so it compiles as `https://example.net`, which (having no
wildcard) is an exact-match pattern accepting precisely itself. -/
theorem compileAllowOrigin_spec_witness :
    compileAllowOrigin "example.net" = compileAllowOrigin "https://example.net" ∧
    compileAllowOrigin "https://example.net" = .exact "https://example.net" ∧
    originTest (compileAllowOrigin "example.net") "https://example.net" = true ∧
    originTest (compileAllowOrigin "example.net") "http://example.net" = false := by
  refine ⟨compileAllowOrigin_spec.1 "example.net" rfl, ?_, rfl, rfl⟩
  exact (compileAllowOrigin_spec.2.1 "https://example.net" rfl rfl).1

/-! ### Dispatch helper lemmas -/

/-- Outside preflight, the effective method is the upper-cased request
method. -/
theorem requestedMethod_eq {req : RequestM} (hm : ¬ jsUpper req.method = "OPTIONS") :
    requestedMethod req = jsUpper req.method := by
  unfold requestedMethod
  rw [if_neg hm]

/-- `handleRequest` on a non-`OPTIONS` request scans in normal mode. -/
theorem handleRequest_nonpreflight {cfg : ServerConfig} {table : List ServerRoute}
    {req : RequestM} (hm : ¬ jsUpper req.method = "OPTIONS") :
    handleRequest cfg table req =
      dispatchRoutes cfg (cfg.corsAllowOrigins.map (fun l => l.map compileAllowOrigin))
        (jsUpper req.method) false req table := by
  unfold handleRequest
  rw [decide_eq_false hm, requestedMethod_eq hm]

/-- `handleRequest` on an `OPTIONS` request scans in preflight mode on
the requested method. -/
theorem handleRequest_preflight {cfg : ServerConfig} {table : List ServerRoute}
    {req : RequestM} (hm : jsUpper req.method = "OPTIONS") :
    handleRequest cfg table req =
      dispatchRoutes cfg (cfg.corsAllowOrigins.map (fun l => l.map compileAllowOrigin))
        (requestedMethod req) true req table := by
  unfold handleRequest
  rw [decide_eq_true hm]

/-- A matched entry with a bound handler dispatches, outside preflight,
into its validation pipeline. -/
theorem dispatchRoutes_run {cfg : ServerConfig} {ao : Option (List OriginPattern)}
    {m : String} {req : RequestM} {entry : ServerRoute} {rest : List ServerRoute}
    {route : MethodSchema} {params : List (String × String)} {h : Handler}
    (h1 : findVal entry.methods m = some route)
    (h2 : entry.matchUrl req.url = some params)
    (h3 : findVal entry.handlers m = some h) :
    dispatchRoutes cfg ao m false req (entry :: rest) = runRoute cfg route req params h := by
  simp [dispatchRoutes, h1, h2, h3]

/-- A matched entry with a bound handler answers a preflight from an
accepted origin with the CORS headers and an empty body. -/
theorem dispatchRoutes_preflight_allowed {cfg : ServerConfig}
    {ao : Option (List OriginPattern)} {m : String} {req : RequestM} {entry : ServerRoute}
    {rest : List ServerRoute} {route : MethodSchema} {params : List (String × String)}
    {h : Handler}
    (h1 : findVal entry.methods m = some route)
    (h2 : entry.matchUrl req.url = some params)
    (h3 : findVal entry.handlers m = some h)
    (hallow : originAllowed ao (headerGet req.headers "Origin") = true) :
    dispatchRoutes cfg ao m true req (entry :: rest) =
      .response
        { status := 200
        , headers :=
            [ ("Access-Control-Allow-Origin", (headerGet req.headers "Origin").getD "*")
            , ("Access-Control-Allow-Methods", m)
            , ("Access-Control-Allow-Headers",
                (headerGet req.headers "Access-Control-Request-Headers").getD "") ]
        , body := none } := by
  simp [dispatchRoutes, h1, h2, h3, hallow]

/-- A matched entry with a bound handler answers a preflight from a
rejected origin with a bare 403. -/
theorem dispatchRoutes_preflight_forbidden {cfg : ServerConfig}
    {ao : Option (List OriginPattern)} {m : String} {req : RequestM} {entry : ServerRoute}
    {rest : List ServerRoute} {route : MethodSchema} {params : List (String × String)}
    {h : Handler}
    (h1 : findVal entry.methods m = some route)
    (h2 : entry.matchUrl req.url = some params)
    (h3 : findVal entry.handlers m = some h)
    (hallow : originAllowed ao (headerGet req.headers "Origin") = false) :
    dispatchRoutes cfg ao m true req (entry :: rest) =
      .response { status := 403, headers := [], body := none } := by
  simp [dispatchRoutes, h1, h2, h3, hallow]

/-- **C1.** For a dispatched non-preflight request whose matched route
has a bound handler, validation runs in the fixed order path → headers →
query → body: the first failing stage yields a 400 response embedding
that stage's structured error under the stage's message, and — since the
later stages' schemas are left completely unconstrained by each
conjunct — no later stage influences the response.  In particular when
both headers and query are invalid, only the headers error is
reported. -/
theorem validationOrder_spec (cfg : ServerConfig) (entry : ServerRoute)
    (rest : List ServerRoute) (req : RequestM) (route : MethodSchema)
    (params : List (String × String)) (h : Handler)
    (hm : ¬ jsUpper req.method = "OPTIONS")
    (hroute : findVal entry.methods (jsUpper req.method) = some route)
    (hmatch : entry.matchUrl req.url = some params)
    (hh : findVal entry.handlers (jsUpper req.method) = some h) :
    (∀ ps e, route.path = some ps →
        safeParse (enableStringParsing ps) (paramsToValue params) = .error e →
        handleRequest cfg (entry :: rest) req =
          .response (httpClientError e "Invalid path parameter" cfg.debug)) ∧
    (∀ ctx hs e, pathStage route params = .ok ctx → route.headers = some hs →
        safeParse (enableStringParsing hs) (headersValue req) = .error e →
        handleRequest cfg (entry :: rest) req =
          .response (httpClientError e "Invalid request headers" cfg.debug)) ∧
    (∀ ctx ctx2 qs e, pathStage route params = .ok ctx →
        headersStage route ctx req = .ok ctx2 → route.query = some qs →
        safeParse (enableStringParsing qs) (queryValue req.url) = .error e →
        handleRequest cfg (entry :: rest) req =
          .response (httpClientError e "Invalid query string" cfg.debug)) ∧
    (∀ ctx ctx2 ctx3 bs e, pathStage route params = .ok ctx →
        headersStage route ctx req = .ok ctx2 →
        queryStage route ctx2 req.url = .ok ctx3 →
        route.body = some bs → parseRequestBody ctx3 bs req = .error e →
        handleRequest cfg (entry :: rest) req =
          .response (httpClientError e "Invalid request body" cfg.debug)) := by
  have hrun : handleRequest cfg (entry :: rest) req = runRoute cfg route req params h :=
    (handleRequest_nonpreflight hm).trans (dispatchRoutes_run hroute hmatch hh)
  refine ⟨?_, ?_, ?_, ?_⟩
  · intro ps e hps he
    rw [hrun]
    simp [runRoute, pathStage, parsePathParams, hps, he]
  · intro ctx hs e hctx hhs he
    rw [hrun]
    simp [runRoute, hctx, headersStage, parseHeaders, hhs, he]
  · intro ctx ctx2 qs e hctx hctx2 hqs he
    rw [hrun]
    simp [runRoute, hctx, hctx2, queryStage, parseQueryString, hqs, he]
  · intro ctx ctx2 ctx3 bs e hctx hctx2 hctx3 hbs he
    rw [hrun]
    simp [runRoute, hctx, hctx2, hctx3, bodyStage, hbs, he]

/-- Witness for **C1**: a GET on a route whose headers schema and query
schema are both violated (`flag` header missing, `flag=yes` in the
query) is answered with the headers error only. -/
theorem validationOrder_spec_witness :
    handleRequest exCfg [exEntryHQ] exReqHQ =
      .response (httpClientError (mkErr "boolean" .vUndefined) "Invalid request headers" false) :=
  (validationOrder_spec exCfg exEntryHQ [] exReqHQ exRouteHQ [("name", "world")] exHandler
      (by decide) rfl rfl rfl).2.1
    { Ctx.init with path := paramsToValue [("name", "world")] } exFlagSchema
    (mkErr "boolean" .vUndefined) rfl rfl rfl

/-- **C2 counterexample.** The claim says a successful preflight is
answered with status 204, but the source builds it with
`new Response(null, { headers })`, whose default status is 200: a
concrete preflight dispatch produces exactly a 200 response. -/
theorem preflight_status_counterexample :
    handleRequest exCfg [exEntrySecond] exPreflightReq =
      .response
        { status := 200
        , headers :=
            [ ("Access-Control-Allow-Origin", "https://shop.example.com")
            , ("Access-Control-Allow-Methods", "GET")
            , ("Access-Control-Allow-Headers", "content-type") ]
        , body := none } ∧
    (200 : Nat) ≠ 204 := by
  exact ⟨rfl, by decide⟩

/-- **C2 (amended).** A CORS preflight matching a route with a bound
handler and an accepted (or unrestricted) origin is answered — before
any schema validation and without invoking the handler, both of which
are universally quantified here — with an empty-bodied response of
status **200** (not 204) carrying `Access-Control-Allow-Origin` (the
request origin, `*` when absent), `Access-Control-Allow-Methods` (the
requested method) and `Access-Control-Allow-Headers` (echoing
`Access-Control-Request-Headers`). -/
theorem preflight_response_spec (cfg : ServerConfig) (entry : ServerRoute)
    (rest : List ServerRoute) (req : RequestM) (route : MethodSchema)
    (params : List (String × String)) (h : Handler)
    (hm : jsUpper req.method = "OPTIONS")
    (hroute : findVal entry.methods (requestedMethod req) = some route)
    (hmatch : entry.matchUrl req.url = some params)
    (hh : findVal entry.handlers (requestedMethod req) = some h)
    (hallow : originAllowed (cfg.corsAllowOrigins.map (fun l => l.map compileAllowOrigin))
        (headerGet req.headers "Origin") = true) :
    handleRequest cfg (entry :: rest) req =
      .response
        { status := 200
        , headers :=
            [ ("Access-Control-Allow-Origin", (headerGet req.headers "Origin").getD "*")
            , ("Access-Control-Allow-Methods", requestedMethod req)
            , ("Access-Control-Allow-Headers",
                (headerGet req.headers "Access-Control-Request-Headers").getD "") ]
        , body := none } :=
  (handleRequest_preflight hm).trans
    (dispatchRoutes_preflight_allowed hroute hmatch hh hallow)

/-- Witness for **C2 (amended)**: a preflight from
`https://shop.example.com` against the wildcard allow-list. -/
theorem preflight_response_spec_witness :
    handleRequest exCfgCors [exEntrySecond] exPreflightReq =
      .response
        { status := 200
        , headers :=
            [ ("Access-Control-Allow-Origin", "https://shop.example.com")
            , ("Access-Control-Allow-Methods", "GET")
            , ("Access-Control-Allow-Headers", "content-type") ]
        , body := none } :=
  preflight_response_spec exCfgCors exEntrySecond [] exPreflightReq exRoutePlain
    [("name", "world")] exHandlerSecond rfl rfl rfl rfl (by decide)

/-- **C6.** A CORS preflight matching a route with a bound handler,
when an allow-list is configured and the request origin is absent or
matches none of the compiled patterns, is answered with a bare 403 —
the handler and every schema being universally quantified, neither is
consulted. -/
theorem preflight_forbidden_spec (cfg : ServerConfig) (entry : ServerRoute)
    (rest : List ServerRoute) (req : RequestM) (route : MethodSchema)
    (params : List (String × String)) (h : Handler) (origins : List String)
    (hm : jsUpper req.method = "OPTIONS")
    (hroute : findVal entry.methods (requestedMethod req) = some route)
    (hmatch : entry.matchUrl req.url = some params)
    (hh : findVal entry.handlers (requestedMethod req) = some h)
    (hcors : cfg.corsAllowOrigins = some origins)
    (hforbid : originAllowed (some (origins.map compileAllowOrigin))
        (headerGet req.headers "Origin") = false) :
    handleRequest cfg (entry :: rest) req =
      .response { status := 403, headers := [], body := none } := by
  refine (handleRequest_preflight hm).trans
    (dispatchRoutes_preflight_forbidden hroute hmatch hh ?_)
  rw [hcors]
  simpa using hforbid

/-- Witness for **C6**: a preflight from `https://evil.example.net`,
which matches neither allow-list entry, is answered 403. -/
theorem preflight_forbidden_spec_witness :
    handleRequest exCfgCors [exEntrySecond] exPreflightBadReq =
      .response { status := 403, headers := [], body := none } :=
  preflight_forbidden_spec exCfgCors exEntrySecond [] exPreflightBadReq exRoutePlain
    [("name", "world")] exHandlerSecond ["https://*.example.com", "*://localhost:3000"]
    rfl rfl rfl rfl rfl (by decide)

/-- **C8.** A non-preflight request matching an entry's method and
pattern but with no handler bound for that method throws a fatal error
in debug mode, and otherwise skips the entry so the scan continues with
the remaining table (a later entry may still produce the response). -/
theorem missing_handler_spec (cfg : ServerConfig) (entry : ServerRoute)
    (rest : List ServerRoute) (req : RequestM) (route : MethodSchema)
    (params : List (String × String))
    (hm : ¬ jsUpper req.method = "OPTIONS")
    (hroute : findVal entry.methods (jsUpper req.method) = some route)
    (hmatch : entry.matchUrl req.url = some params)
    (hh : findVal entry.handlers (jsUpper req.method) = none) :
    (cfg.debug = true →
        handleRequest cfg (entry :: rest) req =
          .fatal ("Handler not found for route: " ++ entry.key ++ " " ++ jsUpper req.method)) ∧
    (cfg.debug = false →
        handleRequest cfg (entry :: rest) req = handleRequest cfg rest req) := by
  constructor
  · intro hd
    rw [handleRequest_nonpreflight hm]
    simp [dispatchRoutes, hroute, hmatch, hh, hd]
  · intro hd
    simp only [handleRequest_nonpreflight hm]
    simp [dispatchRoutes, hroute, hmatch, hh, hd]

/-- Witness for **C8**: with debug off, an unhandled first entry is
skipped and the second entry produces the response; with debug on, the
same table throws. -/
theorem missing_handler_spec_witness :
    handleRequest exCfg [exEntryNoHandler, exEntrySecond] exReqFlagTrue =
      .response (responseJson 200 (.vStr "second")) ∧
    handleRequest exCfgDebug [exEntryNoHandler, exEntrySecond] exReqFlagTrue =
      .fatal "Handler not found for route: first GET" := by
  constructor
  · exact ((missing_handler_spec exCfg exEntryNoHandler [exEntrySecond] exReqFlagTrue
        exRoutePlain [("name", "world")] (by decide) rfl rfl rfl).2 rfl).trans (by rfl)
  · exact ((missing_handler_spec exCfgDebug exEntryNoHandler [exEntrySecond] exReqFlagTrue
        exRoutePlain [("name", "world")] (by decide) rfl rfl rfl).1 rfl).trans (by rfl)

/-- **C10.** A CORS preflight only gets its response from an entry that
also has a handler bound for the requested method: an `OPTIONS` request
whose requested method and URL match an entry without a bound handler is
treated exactly like a normal unhandled match — fatal in debug mode,
silently skipped otherwise — so that entry emits no preflight
response. -/
theorem preflight_missing_handler_spec (cfg : ServerConfig) (entry : ServerRoute)
    (rest : List ServerRoute) (req : RequestM) (route : MethodSchema)
    (params : List (String × String))
    (hm : jsUpper req.method = "OPTIONS")
    (hroute : findVal entry.methods (requestedMethod req) = some route)
    (hmatch : entry.matchUrl req.url = some params)
    (hh : findVal entry.handlers (requestedMethod req) = none) :
    (cfg.debug = true →
        handleRequest cfg (entry :: rest) req =
          .fatal ("Handler not found for route: " ++ entry.key ++ " " ++ requestedMethod req)) ∧
    (cfg.debug = false →
        handleRequest cfg (entry :: rest) req = handleRequest cfg rest req) := by
  constructor
  · intro hd
    rw [handleRequest_preflight hm]
    simp [dispatchRoutes, hroute, hmatch, hh, hd]
  · intro hd
    simp only [handleRequest_preflight hm]
    simp [dispatchRoutes, hroute, hmatch, hh, hd]

/-- Witness for **C10**: a preflight whose requested method `GET` is
unhandled by the first entry skips it (the second entry then answers
the preflight), and throws in debug mode. -/
theorem preflight_missing_handler_spec_witness :
    handleRequest exCfg [exEntryNoHandler, exEntrySecond] exPreflightReq =
      .response
        { status := 200
        , headers :=
            [ ("Access-Control-Allow-Origin", "https://shop.example.com")
            , ("Access-Control-Allow-Methods", "GET")
            , ("Access-Control-Allow-Headers", "content-type") ]
        , body := none } ∧
    handleRequest exCfgDebug [exEntryNoHandler, exEntrySecond] exPreflightReq =
      .fatal "Handler not found for route: first GET" := by
  constructor
  · exact ((preflight_missing_handler_spec exCfg exEntryNoHandler [exEntrySecond]
        exPreflightReq exRoutePlain [("name", "world")] rfl rfl rfl rfl).2 rfl).trans (by rfl)
  · exact ((preflight_missing_handler_spec exCfgDebug exEntryNoHandler [exEntrySecond]
        exPreflightReq exRoutePlain [("name", "world")] rfl rfl rfl rfl).1 rfl).trans (by rfl)

/-- **C9.** On dispatch, the coercion transform is applied to the path,
headers and query schemas before validation — and never to the body
schema, which validates the parsed JSON body exactly as declared.  Each
conjunct characterizes the dispatch outcome for a route declaring just
that part: the path/headers/query outcomes are driven by
`safeParse (enableStringParsing _)`, the body outcome by a bare
`safeParse`. -/
theorem coercion_application_spec (cfg : ServerConfig) (entry : ServerRoute)
    (rest : List ServerRoute) (req : RequestM) (route : MethodSchema)
    (params : List (String × String)) (h : Handler)
    (hm : ¬ jsUpper req.method = "OPTIONS")
    (hroute : findVal entry.methods (jsUpper req.method) = some route)
    (hmatch : entry.matchUrl req.url = some params)
    (hh : findVal entry.handlers (jsUpper req.method) = some h) :
    (∀ ps, route = ⟨some ps, none, none, none⟩ →
        handleRequest cfg (entry :: rest) req =
          match safeParse (enableStringParsing ps) (paramsToValue params) with
          | .error e => .response (httpClientError e "Invalid path parameter" cfg.debug)
          | .ok v => handlerToResult (h { Ctx.init with path := v })) ∧
    (∀ hs, route = ⟨none, none, none, some hs⟩ →
        handleRequest cfg (entry :: rest) req =
          match safeParse (enableStringParsing hs) (headersValue req) with
          | .error e => .response (httpClientError e "Invalid request headers" cfg.debug)
          | .ok v =>
            handlerToResult (h { Ctx.init with path := paramsToValue params, headers := v })) ∧
    (∀ qs, route = ⟨none, some qs, none, none⟩ →
        handleRequest cfg (entry :: rest) req =
          match safeParse (enableStringParsing qs) (queryValue req.url) with
          | .error e => .response (httpClientError e "Invalid query string" cfg.debug)
          | .ok v =>
            handlerToResult (h { Ctx.init with path := paramsToValue params, query := v })) ∧
    (∀ bs, route = ⟨none, none, some bs, none⟩ →
        handleRequest cfg (entry :: rest) req =
          match req.jsonBody with
          | .error e => .response (httpClientError e "Invalid request body" cfg.debug)
          | .ok b =>
            match safeParse bs b with
            | .error e => .response (httpClientError e "Invalid request body" cfg.debug)
            | .ok v =>
              handlerToResult (h { Ctx.init with path := paramsToValue params, body := v })) := by
  have hrun : handleRequest cfg (entry :: rest) req = runRoute cfg route req params h :=
    (handleRequest_nonpreflight hm).trans (dispatchRoutes_run hroute hmatch hh)
  refine ⟨?_, ?_, ?_, ?_⟩
  · intro ps hps
    subst hps
    rw [hrun]
    cases hsp : safeParse (enableStringParsing ps) (paramsToValue params) with
    | error e => simp [runRoute, pathStage, parsePathParams, hsp]
    | ok v =>
      simp [runRoute, pathStage, parsePathParams, hsp, headersStage, queryStage, bodyStage]
  · intro hs hhs
    subst hhs
    rw [hrun]
    cases hsp : safeParse (enableStringParsing hs) (headersValue req) with
    | error e =>
      simp [runRoute, pathStage, headersStage, parseHeaders, hsp]
    | ok v =>
      simp [runRoute, pathStage, headersStage, parseHeaders, hsp, queryStage, bodyStage]
  · intro qs hqs
    subst hqs
    rw [hrun]
    cases hsp : safeParse (enableStringParsing qs) (queryValue req.url) with
    | error e =>
      simp [runRoute, pathStage, headersStage, queryStage, parseQueryString, hsp]
    | ok v =>
      simp [runRoute, pathStage, headersStage, queryStage, parseQueryString, hsp, bodyStage]
  · intro bs hbs
    subst hbs
    rw [hrun]
    cases hjb : req.jsonBody with
    | error e =>
      simp [runRoute, pathStage, headersStage, queryStage, bodyStage, parseRequestBody, hjb]
    | ok b =>
      cases hsp : safeParse bs b with
      | error e =>
        simp [runRoute, pathStage, headersStage, queryStage, bodyStage, parseRequestBody,
          hjb, hsp]
      | ok v =>
        simp [runRoute, pathStage, headersStage, queryStage, bodyStage, parseRequestBody,
          hjb, hsp]

/-- Witness for **C9**: the boolean flag schema coerces the query string
`flag=true` into boolean `true` before the handler runs, while the same
value arriving as the JSON body string `"true"` is rejected with a 400
(no coercion); the boolean body `true` passes. -/
theorem coercion_application_spec_witness :
    handleRequest exCfg [exEntryQ] exReqFlagTrue =
      .response (responseJson 200 (.vObj [("echo", .vObj [("flag", .vBool true)])])) ∧
    handleRequest exCfg [exEntryB] exReqBodyStr =
      .response (httpClientError (mkErr "boolean" (.vStr "true")) "Invalid request body" false) ∧
    handleRequest exCfg [exEntryB] exReqBodyBool =
      .response (responseJson 200 (.vObj [("echo", .vObj [("flag", .vBool true)])])) := by
  refine ⟨?_, ?_, ?_⟩
  · exact ((coercion_application_spec exCfg exEntryQ [] exReqFlagTrue exRouteQ
        [("name", "world")] exHandler (by decide) rfl rfl rfl).2.2.1 exFlagSchema
        rfl).trans (by rfl)
  · exact ((coercion_application_spec exCfg exEntryB [] exReqBodyStr exRouteB
        [("name", "world")] exHandlerBody (by decide) rfl rfl rfl).2.2.2 exFlagSchema
        rfl).trans (by rfl)
  · exact ((coercion_application_spec exCfg exEntryB [] exReqBodyBool exRouteB
        [("name", "world")] exHandlerBody (by decide) rfl rfl rfl).2.2.2 exFlagSchema
        rfl).trans (by rfl)

/-- Stage-wise congruence for the client builder: calls whose stages
agree produce the same outcome. -/
theorem clientRequest_congr {config : ClientConfig} {r1 r2 : ClientRouteRequest}
    (hpath : clientPathStage r1 = clientPathStage r2)
    (hurl : ∀ p, clientUrl config r1 p = clientUrl config r2 p)
    (hquery : ∀ u, clientQueryStage r1 u = clientQueryStage r2 u)
    (hbody : clientBodyStage r1 = clientBodyStage r2)
    (hheaders : clientHeadersStage config r1 = clientHeadersStage config r2)
    (hmethod : r1.method = r2.method) :
    clientRequest config r1 = clientRequest config r2 := by
  unfold clientRequest
  rw [hpath]
  cases clientPathStage r2 with
  | error e => rfl
  | ok p =>
    dsimp only
    rw [hurl, hquery]
    cases clientQueryStage r2 (clientUrl config r2 p) with
    | error e => rfl
    | ok pr =>
      obtain ⟨u2, qv⟩ := pr
      dsimp only
      rw [hbody]
      cases clientBodyStage r2 with
      | error e => rfl
      | ok b =>
        dsimp only
        rw [hheaders]
        cases clientHeadersStage config r2 with
        | error e => rfl
        | ok hd =>
          dsimp only
          rw [hmethod]

/-- A call passing the query stage yields an ok outcome, whatever the
URL under construction. -/
theorem clientQueryStage_ok {r : ClientRouteRequest} (hq : QueryStageOk r) (u : UrlObj) :
    ∃ u2 qv, clientQueryStage r u = .ok (u2, qv) := by
  rcases hq with ⟨h1, h2⟩ | ⟨qs, qv, h1, h2⟩
  · exact ⟨u, r.args.query, by simp [clientQueryStage, h1, h2]⟩
  · exact ⟨{ u with search := urlSearchParamsToString qv }, qv,
      by simp [clientQueryStage, zparse, h1, h2]⟩

/-- **C7.** Client builder: supplying query args to a method with no
query schema (and symmetrically a body to a method with no body schema)
makes the builder throw before any fetch call is constructed — a usage
error when the earlier stages pass; with the schema declared, an absent
query/body defaults to the empty object, and the validated value is what
reaches the fetch call (serialized into the URL's query string for the
query, as the JSON body value for the body). -/
theorem client_usage_defaults_spec (config : ClientConfig) (r : ClientRouteRequest) :
    (r.schema.query = none → jsTruthy r.args.query = true →
        ∃ e, clientRequest config r = .error e) ∧
    (∀ p, clientPathStage r = .ok p → r.schema.query = none →
        jsTruthy r.args.query = true →
        clientRequest config r = .error (.usage "Unexpected query parameters")) ∧
    (r.schema.body = none → r.args.body.isUndefined = false →
        ∃ e, clientRequest config r = .error e) ∧
    (∀ p, clientPathStage r = .ok p → QueryStageOk r →
        r.schema.body = none → r.args.body.isUndefined = false →
        clientRequest config r = .error (.usage "Unexpected body")) ∧
    (∀ qs, r.schema.query = some qs →
        clientRequest config { r with args := { r.args with query := .vUndefined } } =
          clientRequest config { r with args := { r.args with query := .vObj [] } }) ∧
    (∀ bs, r.schema.body = some bs →
        clientRequest config { r with args := { r.args with body := .vUndefined } } =
          clientRequest config { r with args := { r.args with body := .vObj [] } }) ∧
    (∀ qs fc, r.schema.query = some qs → clientRequest config r = .ok fc →
        ∃ qv, safeParse qs (nullishDefault r.args.query (.vObj [])) = .ok qv ∧
          fc.url.search = urlSearchParamsToString qv) ∧
    (∀ bs fc, r.schema.body = some bs → clientRequest config r = .ok fc →
        ∃ bv, safeParse bs (if r.args.body.isUndefined then .vObj [] else r.args.body) = .ok bv ∧
          fc.body = (if bv.isUndefined then none else some bv)) := by
  refine ⟨?_, ?_, ?_, ?_, ?_, ?_, ?_, ?_⟩
  · intro hq ht
    cases hp : clientPathStage r with
    | error e => exact ⟨e, by simp [clientRequest, hp]⟩
    | ok p =>
      exact ⟨.usage "Unexpected query parameters",
        by simp [clientRequest, hp, clientQueryStage, hq, ht]⟩
  · intro p hp hq ht
    simp [clientRequest, hp, clientQueryStage, hq, ht]
  · intro hb hbu
    cases hp : clientPathStage r with
    | error e => exact ⟨e, by simp [clientRequest, hp]⟩
    | ok p =>
      cases hq2 : clientQueryStage r (clientUrl config r p) with
      | error e => exact ⟨e, by simp [clientRequest, hp, hq2]⟩
      | ok pr =>
        obtain ⟨u2, qv⟩ := pr
        exact ⟨.usage "Unexpected body",
          by simp [clientRequest, hp, hq2, clientBodyStage, hb, hbu]⟩
  · intro p hp hq hb hbu
    obtain ⟨u2, qv, hq2⟩ := clientQueryStage_ok hq (clientUrl config r p)
    simp [clientRequest, hp, hq2, clientBodyStage, hb, hbu]
  · intro qs hqs
    refine clientRequest_congr rfl (fun p => rfl) ?_ rfl rfl rfl
    intro u
    simp [clientQueryStage, hqs, nullishDefault]
  · intro bs hbs
    refine clientRequest_congr rfl (fun p => rfl) (fun u => rfl) ?_ rfl rfl
    simp [clientBodyStage, hbs, Value.isUndefined]
  · intro qs fc hqs hok
    unfold clientRequest at hok
    cases hp : clientPathStage r with
    | error e => rw [hp] at hok; cases hok
    | ok p =>
      rw [hp] at hok
      dsimp only at hok
      cases hq2 : safeParse qs (nullishDefault r.args.query (.vObj [])) with
      | error e =>
        have hq3 : clientQueryStage r (clientUrl config r p) = .error (.validation e) := by
          simp [clientQueryStage, hqs, zparse, hq2]
        rw [hq3] at hok
        cases hok
      | ok qv =>
        have hq3 : clientQueryStage r (clientUrl config r p) =
            .ok ({ clientUrl config r p with search := urlSearchParamsToString qv }, qv) := by
          simp [clientQueryStage, hqs, zparse, hq2]
        rw [hq3] at hok
        dsimp only at hok
        cases hb : clientBodyStage r with
        | error e => rw [hb] at hok; cases hok
        | ok b =>
          rw [hb] at hok
          dsimp only at hok
          cases hh : clientHeadersStage config r with
          | error e => rw [hh] at hok; cases hok
          | ok hd =>
            rw [hh] at hok
            dsimp only at hok
            have hfc := (Except.ok.injEq ..).mp hok
            refine ⟨qv, rfl, ?_⟩
            rw [← hfc]
  · intro bs fc hbs hok
    unfold clientRequest at hok
    cases hp : clientPathStage r with
    | error e => rw [hp] at hok; cases hok
    | ok p =>
      rw [hp] at hok
      dsimp only at hok
      cases hq2 : clientQueryStage r (clientUrl config r p) with
      | error e => rw [hq2] at hok; cases hok
      | ok pr =>
        obtain ⟨u2, qv⟩ := pr
        rw [hq2] at hok
        dsimp only at hok
        cases hb2 : safeParse bs (if r.args.body.isUndefined then .vObj [] else r.args.body) with
        | error e =>
          have hb3 : clientBodyStage r = .error (.validation e) := by
            simp [clientBodyStage, hbs, zparse, hb2]
          rw [hb3] at hok
          cases hok
        | ok bv =>
          have hb3 : clientBodyStage r = .ok bv := by
            simp [clientBodyStage, hbs, zparse, hb2]
          rw [hb3] at hok
          dsimp only at hok
          cases hh : clientHeadersStage config r with
          | error e => rw [hh] at hok; cases hok
          | ok hd =>
            rw [hh] at hok
            dsimp only at hok
            have hfc := (Except.ok.injEq ..).mp hok
            refine ⟨bv, rfl, ?_⟩
            rw [← hfc]

/-- Witness for **C7**: query args on a query-less GET raise the query
usage error; a body on a body-less POST raises the body usage error; a
declared query schema with the query argument absent behaves exactly as
with an empty query object. -/
theorem client_usage_defaults_spec_witness :
    clientRequest exClientCfg exClientReqUnexpectedQuery =
      .error (.usage "Unexpected query parameters") ∧
    clientRequest exClientCfg exClientReqUnexpectedBody =
      .error (.usage "Unexpected body") ∧
    clientRequest exClientCfg
        { exClientReqDefaultedQuery with
            args := { exClientReqDefaultedQuery.args with query := .vUndefined } } =
      clientRequest exClientCfg
        { exClientReqDefaultedQuery with
            args := { exClientReqDefaultedQuery.args with query := .vObj [] } } := by
  refine ⟨?_, ?_, ?_⟩
  · exact (client_usage_defaults_spec exClientCfg exClientReqUnexpectedQuery).2.1
      Value.vUndefined rfl rfl rfl
  · exact (client_usage_defaults_spec exClientCfg exClientReqUnexpectedBody).2.2.2.1
      Value.vUndefined rfl (Or.inl ⟨rfl, rfl⟩) rfl rfl
  · exact (client_usage_defaults_spec exClientCfg exClientReqDefaultedQuery).2.2.2.2.1
      exFlagSchema rfl

end Rouzer
